import Mathlib

/-!
Shallow embedding of the task-management core of the repository
(`src/core/tareas.py`, `src/utils.py`) together with the `Usuario` entity
that `tareas.py` imports from `usuarios.py` (that file is not present under
`src/`, so the parts of `Usuario` the core relies on are modelled from the
specification, each such definition marked in its doc comment).

Modelling conventions:
* Python `datetime` values are embedded as a record of calendar fields at
  microsecond granularity (the full precision of `datetime`).
  `datetime.isoformat` renders every field of a naive datetime and
  `datetime.fromisoformat` parses that rendering back exactly, so the
  serialisation pair is embedded as the identity on `DateTime`.
* `json.dumps`/`json.loads` faithfully round-trip the dictionary trees the
  code builds, so serialisation is embedded at the structured-record level:
  `to_json` produces the `Detalle` record (the dictionary built by
  `obtener_detalle`) and `from_json` consumes such a record.
* Methods that mutate `self` become functions `Tarea → ... → Tarea`;
  methods that may raise `ValueError` return `Except String Tarea`, the
  error string being the raised message.  A raise happens before any
  mutation in the source, so the pre-state is the state after a failure.
* `datetime.now()` is passed in as an explicit argument wherever the source
  calls it.
-/

/-- Embeds a naive Python `datetime` at its full (microsecond) precision. -/
structure DateTime where
  year : Nat
  month : Nat
  day : Nat
  hour : Nat
  minute : Nat
  second : Nat
  microsecond : Nat
deriving DecidableEq

/-- `datetime.isoformat()`: renders all fields, hence lossless; embedded as
the identity on the structured timestamp. -/
def DateTime.isoformat (d : DateTime) : DateTime := d

/-- `datetime.fromisoformat(s)`: exact inverse of `isoformat` on its output;
embedded as the identity on the structured timestamp. -/
def DateTime.fromisoformat (d : DateTime) : DateTime := d

/-- Zero-padded two-digit field, as `strftime` renders `%m %d %H %M %S`. -/
def pad2 (n : Nat) : String :=
  if n < 10 then "0" ++ toString n else toString n

/-- Zero-padded four-digit field, as `strftime` renders `%Y`. -/
def pad4 (n : Nat) : String :=
  if n < 10 then "000" ++ toString n
  else if n < 100 then "00" ++ toString n
  else if n < 1000 then "0" ++ toString n
  else toString n

/-- `fecha.strftime("%Y-%m-%d %H:%M:%S")` from `obtener_info_detallada`. -/
def DateTime.strftimeSeg (d : DateTime) : String :=
  pad4 d.year ++ "-" ++ pad2 d.month ++ "-" ++ pad2 d.day ++ " " ++
    pad2 d.hour ++ ":" ++ pad2 d.minute ++ ":" ++ pad2 d.second

/-- `fecha.strftime("%Y-%m-%d %H:%M")` used for comment lines. -/
def DateTime.strftimeMin (d : DateTime) : String :=
  pad4 d.year ++ "-" ++ pad2 d.month ++ "-" ++ pad2 d.day ++ " " ++
    pad2 d.hour ++ ":" ++ pad2 d.minute

/-- Modelled from the spec: the `Usuario` entity of `usuarios.py`, which is
imported by `src/core/tareas.py` but absent from `src/`.  Fields follow §3
of the spec (id, username, display name, role, creation timestamp) with the
Spanish field names the rest of the repository uses (`usuario.nombre`,
`usuario.rol` in `src/api/app.py`, `autor.nombre_visible` in
`src/core/tareas.py`, and the schema tests in `src/test/test_schemas.py`). -/
structure Usuario where
  id : String
  nombre : String
  nombre_visible : String
  rol : String
  fecha_creacion : DateTime
deriving DecidableEq

/-- Modelled from the spec (§4.2, §9): equality used by the membership
checks (`in` / `not in` / `list.remove` on `usuarios_asignados`) is
key-based on the username `nombre`, not object identity, so that Users
rehydrated from snapshots still satisfy authorship checks. -/
def usuarioEq (a b : Usuario) : Bool := a.nombre == b.nombre

/-- Modelled from the spec: textual rendering of a User (`str(u)` in the
report of `obtener_info_detallada`; `usuarios.py` is absent from `src/`).
The spec only requires the assigned-user list to be displayed, so the
display name and username are rendered. -/
def Usuario.str (u : Usuario) : String :=
  u.nombre_visible ++ " (" ++ u.nombre ++ ")"

/-- The dictionary form of a User produced by `Usuario.to_dict` (§6 of the
spec: id, username, display_name, role, creation timestamp). -/
structure UsuarioDict where
  id : String
  nombre : String
  nombre_visible : String
  rol : String
  fecha_creacion : DateTime
deriving DecidableEq

/-- Modelled from the spec (§4.1/§6): `Usuario.to_dict` resolves a User to
its snapshot form carrying id, username, display name, role and creation
timestamp. -/
def Usuario.to_dict (u : Usuario) : UsuarioDict :=
  ⟨u.id, u.nombre, u.nombre_visible, u.rol, u.fecha_creacion.isoformat⟩

/-- Modelled from the spec (§4.1): `Usuario.from_dict` is the exact inverse
of `Usuario.to_dict`, rehydrating an independent User value. -/
def Usuario.from_dict (d : UsuarioDict) : Usuario :=
  ⟨d.id, d.nombre, d.nombre_visible, d.rol, d.fecha_creacion.fromisoformat⟩

/-- Python `usuario in lista` over `List[Usuario]` under [usuarioEq]. -/
def memUsuario (u : Usuario) : List Usuario → Bool
  | [] => false
  | v :: vs => usuarioEq v u || memUsuario u vs

/-- Python `lista.remove(usuario)`: drops the first element equal to `u`
(callers guard with `in` first, so the element exists). -/
def removeFirstUsuario (u : Usuario) : List Usuario → List Usuario
  | [] => []
  | v :: vs => if usuarioEq v u then vs else v :: removeFirstUsuario u vs

/-- One entry of `Tarea.comentarios`: the tuple `(texto, autor, fecha)`. -/
structure Comentario where
  texto : String
  autor : Usuario
  fecha : DateTime
deriving DecidableEq

/-- The `Tarea` entity of `src/core/tareas.py`. -/
structure Tarea where
  nombre : String
  descripcion : String
  estado : String
  fecha_creacion : DateTime
  usuarios_asignados : List Usuario
  comentarios : List Comentario
deriving DecidableEq

/-- `Tarea.__init__` (src/core/tareas.py lines 16-38): raises `ValueError`
when `nombre` is falsy (the empty string); otherwise the new task has state
`"pendiente"`, creation time `now` (the `datetime.now()` call), the given
assigned users (`usuarios_asignados or []`: a fresh empty list when the
argument is `None` or empty), and no comments. -/
def Tarea.init (nombre descripcion : String)
    (usuarios_asignados : Option (List Usuario)) (now : DateTime) :
    Except String Tarea :=
  if nombre = "" then
    Except.error "El nombre de la tarea no puede estar vacío."
  else
    Except.ok
      { nombre := nombre
        descripcion := descripcion
        estado := "pendiente"
        fecha_creacion := now
        usuarios_asignados := usuarios_asignados.getD []
        comentarios := [] }

/-- `Tarea.agregar_usuario` (lines 44-49): append unless already a member. -/
def Tarea.agregar_usuario (t : Tarea) (usuario : Usuario) : Tarea :=
  if memUsuario usuario t.usuarios_asignados then t
  else { t with usuarios_asignados := t.usuarios_asignados ++ [usuario] }

/-- `Tarea.quitar_usuario` (lines 51-56): remove the first occurrence when
a member, otherwise do nothing. -/
def Tarea.quitar_usuario (t : Tarea) (usuario : Usuario) : Tarea :=
  if memUsuario usuario t.usuarios_asignados then
    { t with usuarios_asignados :=
        removeFirstUsuario usuario t.usuarios_asignados }
  else t

/-- `Tarea.cambiar_estado` (lines 58-64): raises `ValueError` unless the
new state is one of the two literals, otherwise overwrites the state. -/
def Tarea.cambiar_estado (t : Tarea) (nuevo_estado : String) :
    Except String Tarea :=
  if nuevo_estado = "pendiente" ∨ nuevo_estado = "finalizada" then
    Except.ok { t with estado := nuevo_estado }
  else
    Except.error "El estado debe ser \x27pendiente\x27 o \x27finalizada\x27."

/-- `Tarea.agregar_comentario` (lines 66-76): raises `ValueError` when the
author is not an assigned user, otherwise appends `(texto, autor, now)`. -/
def Tarea.agregar_comentario (t : Tarea) (texto : String) (autor : Usuario)
    (now : DateTime) : Except String Tarea :=
  if memUsuario autor t.usuarios_asignados then
    Except.ok { t with comentarios := t.comentarios ++ [⟨texto, autor, now⟩] }
  else
    Except.error "El autor debe ser un usuario asignado a la tarea."

/-- One entry of the `comentarios` list in `obtener_detalle`. -/
structure ComentarioDict where
  texto : String
  autor : UsuarioDict
  fecha : DateTime
deriving DecidableEq

/-- The dictionary built by `Tarea.obtener_detalle` (lines 82-102). -/
structure Detalle where
  nombre : String
  descripcion : String
  estado : String
  fecha_creacion : DateTime
  usuarios_asignados : List UsuarioDict
  comentarios : List ComentarioDict
deriving DecidableEq

/-- `Tarea.obtener_detalle` (lines 82-102): the structured snapshot, with
users resolved through `to_dict` and timestamps through `isoformat`. -/
def Tarea.obtener_detalle (t : Tarea) : Detalle :=
  { nombre := t.nombre
    descripcion := t.descripcion
    estado := t.estado
    fecha_creacion := t.fecha_creacion.isoformat
    usuarios_asignados := t.usuarios_asignados.map Usuario.to_dict
    comentarios := t.comentarios.map fun c =>
      ⟨c.texto, c.autor.to_dict, c.fecha.isoformat⟩ }

/-- `Tarea.to_json` (lines 139-143): `json.dumps(self.obtener_detalle())`;
the JSON text layer faithfully round-trips the dictionary tree, so the
embedding works at the `Detalle` level. -/
def Tarea.to_json (t : Tarea) : Detalle := t.obtener_detalle

/-- `Tarea.from_json` (lines 145-174): rebuilds the users with
`Usuario.from_dict`, calls the constructor (which can raise on an empty
name and stamps `datetime.now()`, here `now`), then overwrites `estado`
verbatim from the record, overwrites `fecha_creacion` with the parsed
timestamp, and appends each comment in record order. -/
def Tarea.from_json (obj : Detalle) (now : DateTime) : Except String Tarea :=
  match Tarea.init obj.nombre obj.descripcion
      (some (obj.usuarios_asignados.map Usuario.from_dict)) now with
  | Except.error e => Except.error e
  | Except.ok tarea =>
      Except.ok
        { tarea with
          estado := obj.estado
          fecha_creacion := obj.fecha_creacion.fromisoformat
          comentarios := tarea.comentarios ++ obj.comentarios.map fun c =>
            ⟨c.texto, Usuario.from_dict c.autor, c.fecha.fromisoformat⟩ }

/-- `Tarea.obtener_info_detallada` (lines 104-133): the human-readable
report, a list of lines joined with newlines. -/
def Tarea.obtener_info_detallada (t : Tarea) : String :=
  let lineas : List String :=
    ["📌 TAREA: " ++ t.nombre,
     "📝 Descripción: " ++ t.descripcion,
     "📊 Estado: " ++ t.estado,
     "📅 Creada el: " ++ t.fecha_creacion.strftimeSeg,
     "👥 Usuarios asignados:"]
  let lineas :=
    if t.usuarios_asignados.isEmpty then lineas ++ ["  - Ninguno"]
    else lineas ++ t.usuarios_asignados.map fun u => "  - " ++ u.str
  let lineas := lineas ++ ["\n💬 Comentarios:"]
  let lineas :=
    if t.comentarios.isEmpty then lineas ++ ["  - No hay comentarios."]
    else lineas ++ t.comentarios.map fun c =>
      "  - [" ++ c.fecha.strftimeMin ++ "] " ++
        c.autor.nombre_visible ++ ": " ++ c.texto
  String.intercalate "\n" lineas

/-- The dictionary returned by `calcular_estadisticas_tareas`. -/
structure Estadisticas where
  total : Nat
  finalizadas : Nat
  pendientes : Nat
deriving DecidableEq

/-- `calcular_estadisticas_tareas` (src/utils.py lines 161-181): scans the
given list, counting the tasks whose `estado` equals `"finalizada"`. -/
def calcular_estadisticas_tareas (tareas : List Tarea) : Estadisticas :=
  let total := tareas.length
  let finalizadas := (tareas.filter fun t => t.estado == "finalizada").length
  let pendientes := total - finalizadas
  { total := total, finalizadas := finalizadas, pendientes := pendientes }

/-! ## Helper lemmas and concrete values shared by the claim theorems -/

theorem usuarioEq_refl (u : Usuario) : usuarioEq u u = true := by
  simp [usuarioEq]

theorem memUsuario_congr_nombre (u v : Usuario) (h : v.nombre = u.nombre) :
    ∀ l : List Usuario, memUsuario v l = memUsuario u l := by
  intro l
  induction l with
  | nil => rfl
  | cons w ws ih => simp [memUsuario, usuarioEq, h, ih]

/-- The occurrence count used to state uniqueness of an assignment, under
the same username-key equality the membership checks use. -/
def countUsuario (u : Usuario) (l : List Usuario) : Nat :=
  l.countP fun v => usuarioEq v u

theorem countUsuario_nil (u : Usuario) : countUsuario u [] = 0 := rfl

theorem countUsuario_append (u : Usuario) (l1 l2 : List Usuario) :
    countUsuario u (l1 ++ l2) = countUsuario u l1 + countUsuario u l2 := by
  simp [countUsuario, List.countP_append]

theorem countUsuario_singleton_self (u : Usuario) :
    countUsuario u [u] = 1 := by
  simp [countUsuario, List.countP_cons, usuarioEq_refl]

theorem memUsuario_iff_countUsuario_pos (u : Usuario) (l : List Usuario) :
    memUsuario u l = true ↔ 0 < countUsuario u l := by
  induction l with
  | nil => simp [memUsuario, countUsuario]
  | cons v vs ih =>
      cases hv : usuarioEq v u
      · simp [memUsuario, countUsuario, List.countP_cons, hv]
        simp [countUsuario] at ih
        simp [ih]
      · simp [memUsuario, countUsuario, List.countP_cons, hv]

theorem from_dict_to_dict (u : Usuario) :
    Usuario.from_dict u.to_dict = u := rfl

theorem map_from_dict_to_dict (l : List Usuario) :
    (l.map Usuario.to_dict).map Usuario.from_dict = l := by
  induction l with
  | nil => rfl
  | cons u us ih => simp [ih, from_dict_to_dict]

theorem map_comentario_roundtrip (l : List Comentario) :
    ((l.map fun c =>
        (⟨c.texto, c.autor.to_dict, c.fecha.isoformat⟩ : ComentarioDict)).map
      fun c =>
        (⟨c.texto, Usuario.from_dict c.autor, c.fecha.fromisoformat⟩ :
          Comentario)) = l := by
  induction l with
  | nil => rfl
  | cons c cs ih =>
      rw [List.map_cons, List.map_cons, ih]
      rfl

def d0 : DateTime := ⟨2024, 1, 2, 3, 4, 5, 6⟩

def d1 : DateTime := ⟨2024, 1, 2, 3, 4, 6, 0⟩

def uAlice : Usuario := ⟨"u1", "alice", "Alice", "user", d0⟩

def uBob : Usuario := ⟨"u2", "bob", "Bob", "user", d0⟩

/-- A User value distinct in every field from [uAlice] except the username
key, as rehydration from a snapshot would produce. -/
def uAliceClone : Usuario := ⟨"u9", "alice", "Alicia", "admin", d1⟩

def tAlice : Tarea := ⟨"tarea", "desc", "pendiente", d0, [uAlice], []⟩

/-- A task whose assigned-user list holds the same user twice, as the
constructor produces when handed a duplicated list. -/
def tDup : Tarea := ⟨"tarea", "desc", "pendiente", d0, [uAlice, uAlice], []⟩

def tFull : Tarea :=
  ⟨"Refactor", "desc", "finalizada", d0, [uAlice, uBob],
    [⟨"Arranco", uAlice, d0⟩, ⟨"ok", uBob, d1⟩]⟩

/-! ## Claim theorems -/

/-- C1: for every Task `t` (any state, assigned users and comments) whose
name is non-empty (every constructible Task), deserialising its serialised
snapshot yields a Task attribute-equal to `t` on every field: name,
description, state, creation timestamp at the precision of the format, the
assigned-user list in order, and the comment sequence in original order
with each comment text, author and timestamp. -/
theorem from_json_to_json_roundtrip (t : Tarea) (now : DateTime)
    (h : t.nombre ≠ "") :
    Tarea.from_json t.to_json now = Except.ok t := by
  obtain ⟨n, d, e, f, us, cs⟩ := t
  simp only [Tarea.to_json, Tarea.obtener_detalle, Tarea.from_json,
    Tarea.init] at h ⊢
  rw [if_neg h]
  simp only [Option.getD_some, map_from_dict_to_dict]
  rw [map_comentario_roundtrip]
  rfl

theorem from_json_to_json_roundtrip_witness :
    Tarea.from_json tFull.to_json d0 = Except.ok tFull :=
  from_json_to_json_roundtrip tFull d0 (by decide)

/-- C2: adding a comment with author `u` fails (the `ValueError` the spec
maps to PermissionDenied) exactly when `u` is not among the assigned users,
in which case no comment is produced (the source raises before mutating, so
`t.comentarios` is unchanged); when `u` is assigned, the result appends
`(texto, u, now)` at the end of `t.comentarios`, leaving every existing
comment in place and in order. -/
theorem agregar_comentario_spec (t : Tarea) (texto : String) (u : Usuario)
    (now : DateTime) :
    (memUsuario u t.usuarios_asignados = false →
      t.agregar_comentario texto u now =
        Except.error "El autor debe ser un usuario asignado a la tarea.") ∧
    (memUsuario u t.usuarios_asignados = true →
      t.agregar_comentario texto u now =
        Except.ok
          { t with comentarios := t.comentarios ++ [⟨texto, u, now⟩] }) := by
  constructor <;> intro h <;> simp [Tarea.agregar_comentario, h]

theorem agregar_comentario_spec_witness :
    Tarea.agregar_comentario tAlice "x" uBob d0 =
      Except.error "El autor debe ser un usuario asignado a la tarea." ∧
    Tarea.agregar_comentario tAlice "x" uAlice d0 =
      Except.ok
        { tAlice with
          comentarios := tAlice.comentarios ++ [⟨"x", uAlice, d0⟩] } :=
  ⟨(agregar_comentario_spec tAlice "x" uBob d0).1 (by decide),
    (agregar_comentario_spec tAlice "x" uAlice d0).2 (by decide)⟩

/-- C3: construction fails (the `ValueError` the spec maps to
InvalidArgument) exactly when the name is the empty string; with a
non-empty name it succeeds and the new task has state `"pendiente"`, no
comments, and the supplied assigned users, defaulting to the empty list
when none are supplied. -/
theorem tarea_init_spec (nombre descripcion : String)
    (usuarios : Option (List Usuario)) (now : DateTime) :
    (nombre = "" →
      Tarea.init nombre descripcion usuarios now =
        Except.error "El nombre de la tarea no puede estar vacío.") ∧
    (nombre ≠ "" →
      Tarea.init nombre descripcion usuarios now =
        Except.ok
          { nombre := nombre
            descripcion := descripcion
            estado := "pendiente"
            fecha_creacion := now
            usuarios_asignados := usuarios.getD []
            comentarios := [] }) := by
  constructor <;> intro h <;> simp [Tarea.init, h]

theorem tarea_init_spec_witness :
    Tarea.init "" "desc" none d0 =
      Except.error "El nombre de la tarea no puede estar vacío." ∧
    Tarea.init "Refactor" "desc" none d0 =
      Except.ok
        { nombre := "Refactor"
          descripcion := "desc"
          estado := "pendiente"
          fecha_creacion := d0
          usuarios_asignados := []
          comentarios := [] } :=
  ⟨(tarea_init_spec "" "desc" none d0).1 rfl,
    (tarea_init_spec "Refactor" "desc" none d0).2 (by decide)⟩

/-- C4: `cambiar_estado` fails (the `ValueError` the spec maps to
InvalidArgument) exactly when the target is neither `"pendiente"` nor
`"finalizada"` — in which case no updated task is produced, the source
raising before mutating — and succeeds on either valid target from any
current state, with no guard other than value validity. -/
theorem cambiar_estado_spec (t : Tarea) (s : String) :
    (¬ (s = "pendiente" ∨ s = "finalizada") →
      t.cambiar_estado s =
        Except.error
          "El estado debe ser \x27pendiente\x27 o \x27finalizada\x27.") ∧
    (s = "pendiente" ∨ s = "finalizada" →
      t.cambiar_estado s = Except.ok { t with estado := s }) := by
  constructor <;> intro h <;> simp [Tarea.cambiar_estado, h]

theorem cambiar_estado_spec_witness :
    Tarea.cambiar_estado tFull "en_progreso" =
      Except.error
        "El estado debe ser \x27pendiente\x27 o \x27finalizada\x27." ∧
    Tarea.cambiar_estado tFull "pendiente" =
      Except.ok { tFull with estado := "pendiente" } :=
  ⟨(cambiar_estado_spec tFull "en_progreso").1 (by decide),
    (cambiar_estado_spec tFull "pendiente").2 (Or.inl rfl)⟩

theorem quitar_usuario_no_member (t : Tarea) (u : Usuario)
    (h : memUsuario u t.usuarios_asignados = false) :
    t.quitar_usuario u = t := by
  unfold Tarea.quitar_usuario
  rw [h]
  rfl

/-- C5 counterexample: the claim quantifies over every Task, but the
constructor accepts a list already holding the same user twice (see
`init_sin_deduplicar`), and on such a task `agregar_usuario` is a no-op
that leaves the user appearing twice, not exactly once. -/
theorem asignar_usuario_spec_cex :
    Tarea.init "tarea" "desc" (some [uAlice, uAlice]) d0 = Except.ok tDup ∧
    countUsuario uAlice
        (tDup.agregar_usuario uAlice).usuarios_asignados ≠ 1 :=
  ⟨rfl, by decide⟩

/-- C5 (amended): for every Task `t` whose assigned list does not already
hold `u` more than once — in particular every task built without a
duplicated initial list — after calling `agregar_usuario u` once or twice,
`u` appears exactly once in the assigned users; and removing a
non-assigned user leaves the task unchanged. -/
theorem asignar_usuario_spec (t : Tarea) (u : Usuario)
    (h : countUsuario u t.usuarios_asignados ≤ 1) :
    countUsuario u (t.agregar_usuario u).usuarios_asignados = 1 ∧
    countUsuario u
        ((t.agregar_usuario u).agregar_usuario u).usuarios_asignados = 1 ∧
    (memUsuario u t.usuarios_asignados = false → t.quitar_usuario u = t) := by
  cases m : memUsuario u t.usuarios_asignados with
  | true =>
      have h1 : 0 < countUsuario u t.usuarios_asignados :=
        (memUsuario_iff_countUsuario_pos u _).mp m
      have hc : countUsuario u t.usuarios_asignados = 1 :=
        Nat.le_antisymm h h1
      refine ⟨?_, ?_, ?_⟩
      · simp [Tarea.agregar_usuario, m, hc]
      · simp [Tarea.agregar_usuario, m, hc]
      · intro h'
        exact Bool.noConfusion h'
  | false =>
      have h0 : countUsuario u t.usuarios_asignados = 0 := by
        by_contra hne
        have hpos :=
          (memUsuario_iff_countUsuario_pos u t.usuarios_asignados).mpr
            (Nat.pos_of_ne_zero hne)
        rw [m] at hpos
        cases hpos
      have hstep : t.agregar_usuario u =
          { t with usuarios_asignados := t.usuarios_asignados ++ [u] } := by
        simp [Tarea.agregar_usuario, m]
      have hcount : countUsuario u (t.usuarios_asignados ++ [u]) = 1 := by
        rw [countUsuario_append, h0, countUsuario_singleton_self]
      have hmem2 : memUsuario u (t.usuarios_asignados ++ [u]) = true :=
        (memUsuario_iff_countUsuario_pos u _).mpr
          (by rw [hcount]; exact Nat.one_pos)
      refine ⟨?_, ?_, ?_⟩
      · rw [hstep]
        exact hcount
      · rw [hstep]
        simp [Tarea.agregar_usuario, hmem2, hcount]
      · intro h'
        exact quitar_usuario_no_member t u m

theorem asignar_usuario_spec_witness :
    countUsuario uBob (tAlice.agregar_usuario uBob).usuarios_asignados = 1 ∧
    countUsuario uBob
        ((tAlice.agregar_usuario uBob).agregar_usuario
          uBob).usuarios_asignados = 1 ∧
    (memUsuario uBob tAlice.usuarios_asignados = false →
      tAlice.quitar_usuario uBob = tAlice) :=
  asignar_usuario_spec tAlice uBob (by decide)

/-- C6: assignment membership is keyed on the username, not object
identity: when some user with username `u.nombre` is assigned, adding a
comment succeeds for any User value carrying that username — in particular
a distinct instance rehydrated from a snapshot — and assigning such a
duplicate is still a no-op. -/
theorem autoria_por_nombre (t : Tarea) (u v : Usuario) (texto : String)
    (now : DateTime) (hmem : memUsuario u t.usuarios_asignados = true)
    (hkey : v.nombre = u.nombre) :
    t.agregar_comentario texto v now =
      Except.ok
        { t with comentarios := t.comentarios ++ [⟨texto, v, now⟩] } ∧
    t.agregar_usuario v = t := by
  have hv : memUsuario v t.usuarios_asignados = true := by
    rw [memUsuario_congr_nombre u v hkey, hmem]
  exact ⟨by simp [Tarea.agregar_comentario, hv],
    by simp [Tarea.agregar_usuario, hv]⟩

theorem autoria_por_nombre_witness :
    Tarea.agregar_comentario tAlice "hola" uAliceClone d0 =
      Except.ok
        { tAlice with
          comentarios := tAlice.comentarios ++ [⟨"hola", uAliceClone, d0⟩] } ∧
    Tarea.agregar_usuario tAlice uAliceClone = tAlice :=
  autoria_por_nombre tAlice uAlice uAliceClone "hola" d0 (by decide)
    (by decide)

/-- C7: the statistics of a task list report the length as `total`, the
number of tasks in state `"finalizada"` as `finalizadas`, their difference
as `pendientes`, and the two counts add back up to the total; the function
is a pure recomputation over the list it is handed on each call. -/
theorem estadisticas_spec (tareas : List Tarea) :
    (calcular_estadisticas_tareas tareas).total = tareas.length ∧
    (calcular_estadisticas_tareas tareas).finalizadas =
      tareas.countP (fun t => t.estado == "finalizada") ∧
    (calcular_estadisticas_tareas tareas).pendientes =
      tareas.length - tareas.countP (fun t => t.estado == "finalizada") ∧
    (calcular_estadisticas_tareas tareas).finalizadas +
        (calcular_estadisticas_tareas tareas).pendientes =
      (calcular_estadisticas_tareas tareas).total := by
  have hle : tareas.countP (fun t => t.estado == "finalizada") ≤
      tareas.length := List.countP_le_length _
  refine ⟨rfl, ?_, ?_, ?_⟩
  · simp [calcular_estadisticas_tareas, List.countP_eq_length_filter]
  · simp [calcular_estadisticas_tareas, List.countP_eq_length_filter]
  · simp only [calcular_estadisticas_tareas, List.countP_eq_length_filter]
      at hle ⊢
    exact Nat.add_sub_cancel' hle

/-- C8: the human-readable report is a deterministic function of the task
fields; it carries the name, description, state and creation timestamp (at
second precision, the format the source uses) on dedicated lines, lists
the assigned users exactly when there are any and the sentinel line
"  - Ninguno" exactly when there are none, and lists the comments in the
order of `t.comentarios` with the sentinel "  - No hay comentarios."
exactly when there are none. -/
theorem reporte_spec (t : Tarea) :
    t.obtener_info_detallada =
      String.intercalate "\n"
        (["📌 TAREA: " ++ t.nombre,
          "📝 Descripción: " ++ t.descripcion,
          "📊 Estado: " ++ t.estado,
          "📅 Creada el: " ++ t.fecha_creacion.strftimeSeg,
          "👥 Usuarios asignados:"] ++
          (if t.usuarios_asignados = [] then ["  - Ninguno"]
            else t.usuarios_asignados.map fun u => "  - " ++ u.str) ++
          ["\n💬 Comentarios:"] ++
          (if t.comentarios = [] then ["  - No hay comentarios."]
            else t.comentarios.map fun c =>
              "  - [" ++ c.fecha.strftimeMin ++ "] " ++
                c.autor.nombre_visible ++ ": " ++ c.texto)) := by
  obtain ⟨n, d, e, f, us, cs⟩ := t
  cases us <;> cases cs <;>
    simp [Tarea.obtener_info_detallada, List.isEmpty]

/-- C9: `from_json` copies the state string of the record into the
reconstructed task verbatim, with no validation, for every record whose
name is non-empty — so a record whose state is outside the two legal
values (for instance "en_progreso") yields a task in that illegal state,
even though `cambiar_estado` would reject it. -/
theorem from_json_estado_verbatim (obj : Detalle) (now : DateTime)
    (h : obj.nombre ≠ "") :
    ∃ t, Tarea.from_json obj now = Except.ok t ∧ t.estado = obj.estado := by
  simp only [Tarea.from_json, Tarea.init]
  rw [if_neg h]
  exact ⟨_, rfl, rfl⟩

/-- A snapshot record carrying a state outside the two legal values. -/
def snapEnProgreso : Detalle := ⟨"tarea", "desc", "en_progreso", d0, [], []⟩

theorem from_json_estado_verbatim_witness :
    (∃ t, Tarea.from_json snapEnProgreso d0 = Except.ok t ∧
        t.estado = "en_progreso") ∧
    "en_progreso" ≠ "pendiente" ∧ "en_progreso" ≠ "finalizada" :=
  ⟨from_json_estado_verbatim snapEnProgreso d0 (by decide),
    by decide, by decide⟩

/-- C10: the constructor stores a caller-supplied duplicated list as is
(no set semantics at that boundary), and one `quitar_usuario` then removes
only the first occurrence, so the user is still assigned afterwards. -/
theorem init_sin_deduplicar (u : Usuario) (descripcion : String)
    (now : DateTime) :
    ∃ t, Tarea.init "tarea" descripcion (some [u, u]) now = Except.ok t ∧
      t.usuarios_asignados = [u, u] ∧
      (t.quitar_usuario u).usuarios_asignados = [u] ∧
      memUsuario u (t.quitar_usuario u).usuarios_asignados = true := by
  have hr := usuarioEq_refl u
  refine ⟨⟨"tarea", descripcion, "pendiente", now, [u, u], []⟩,
    ?_, rfl, ?_, ?_⟩
  · rfl
  · simp [Tarea.quitar_usuario, memUsuario, hr, removeFirstUsuario]
  · simp [Tarea.quitar_usuario, memUsuario, hr, removeFirstUsuario]
